import Mathlib

/-!
Shallow embedding of the Rayyan systematic-review screening scripts
(`main.py`, `resolve_duplicates.py`): the AI classification function, the
decision writer, the batch screening loop, the session-validity check, the
bootstrap header-capture callback, and the duplicate-cluster resolver.
External library behaviour (the Gemini call, `json.loads`) is abstracted as
explicit function parameters; everything else is translated directly from
the source.
-/

namespace Screener

/-- JSON values as produced by `json.loads`: null, booleans, numbers
(modelled as integers), strings, arrays and objects (ordered field lists). -/
inductive JVal where
  | null : JVal
  | bool (b : Bool) : JVal
  | num (n : Int) : JVal
  | str (s : String) : JVal
  | arr (elems : List JVal) : JVal
  | obj (fields : List (String × JVal)) : JVal

mutual

/-- Boolean equality on JSON values (Python `==` restricted to JSON data). -/
def JVal.beq : JVal → JVal → Bool
  | .null, .null => true
  | .bool a, .bool b => a == b
  | .num a, .num b => a == b
  | .str a, .str b => a == b
  | .arr xs, .arr ys => JVal.beqList xs ys
  | .obj xs, .obj ys => JVal.beqFields xs ys
  | _, _ => false

/-- Elementwise equality of JSON arrays. -/
def JVal.beqList : List JVal → List JVal → Bool
  | [], [] => true
  | x :: xs, y :: ys => JVal.beq x y && JVal.beqList xs ys
  | _, _ => false

/-- Fieldwise equality of JSON objects. -/
def JVal.beqFields : List (String × JVal) → List (String × JVal) → Bool
  | [], [] => true
  | (k₁, v₁) :: xs, (k₂, v₂) :: ys => k₁ == k₂ && JVal.beq v₁ v₂ && JVal.beqFields xs ys
  | _, _ => false

end

instance : BEq JVal := ⟨JVal.beq⟩

/-- Python truthiness of a JSON value (`if x:`): null, False, 0, the empty
string and empty collections are falsy. -/
def JVal.truthy : JVal → Bool
  | .null => false
  | .bool b => b
  | .num n => n != 0
  | .str s => s != ""
  | .arr elems => !elems.isEmpty
  | .obj fields => !fields.isEmpty

/-- Dictionary lookup on a JSON object's field list (first occurrence wins,
as in a Python dict where keys are unique). -/
def lookupField : List (String × JVal) → String → Option JVal
  | [], _ => none
  | (k, v) :: rest, key => if k = key then some v else lookupField rest key

/-- String containment test, `pat in s` for Python strings. -/
def containsSubstr (s pat : String) : Bool :=
  (List.range (s.length + 1)).any fun i => pat.isPrefixOf (s.drop i)

/-- Python membership test `needle in j` for a string needle against a JSON
value: key membership for dicts, element equality for lists, substring test
for strings, and a TypeError (modelled as `Except.error`) for values that
are not iterable (numbers, booleans, null). -/
def pyContainsStr (needle : String) : JVal → Except Unit Bool
  | .obj fields => .ok (fields.any fun kv => kv.1 == needle)
  | .arr elems => .ok (elems.any fun v => JVal.beq v (JVal.str needle))
  | .str s => .ok (containsSubstr s needle)
  | _ => .error ()

/-- Python subscript `j[key]` with a string key: dict lookup (KeyError when
absent), TypeError for every non-dict value. Both errors are `Except.error`. -/
def pyIndexStr (j : JVal) (key : String) : Except Unit JVal :=
  match j with
  | .obj fields =>
    match lookupField fields key with
    | some v => .ok v
    | none => .error ()
  | _ => .error ()

/-- One entry of a record's `abstracts` list (a dict with a `content` key). -/
structure AbstractEntry where
  content : Option String := none

/-- The `dedup_results` sub-object of a fetched record; its `cluster_id` is
kept as a raw JSON value because the code only ever tests its truthiness and
uses it as a dictionary key. -/
structure DedupResults where
  cluster_id : Option JVal := none

/-- A fetched article record, with the fields the scripts read. Every field
is optional, mirroring `article.get(...)` access on the platform's JSON. -/
structure Article where
  id : Option Int := none
  title : Option String := none
  abstracts : Option (List AbstractEntry) := none
  dedup_results : Option DedupResults := none

/-- `article.get("title", "")`. -/
def articleTitle (a : Article) : String := a.title.getD ""

/-- The abstract extraction of `get_ai_decision`: the first abstract's
`content` when the `abstracts` list is present and non-empty, else `""`. -/
def articleAbstract (a : Article) : String :=
  match a.abstracts with
  | some (e :: _) => e.content.getD ""
  | _ => ""

/-- The screening rubric embedded in every screening prompt
(`INCLUSION_CRITERIA` in `main.py`). -/
def INCLUSION_CRITERIA : String :=
  "\nI am screening for a systematic review and meta-analysis on aortic valve replacement.\nPlease adhere strictly to the following criteria based on the study protocol.\n\n**PICO Framework:**\n*   **Population:** Adult patients with severe aortic stenosis classified as being at **LOW SURGICAL RISK** (e.g., STS score < 4%).\n*   **Intervention:** Transcatheter Aortic Valve Replacement (TAVR or TAVI).\n*   **Comparator:** Surgical Aortic Valve Replacement (SAVR). The study MUST be a direct comparison between TAVR and SAVR.\n*   **Outcomes:** Must report on long-term (>=1 year) clinical outcomes such as mortality, stroke, reintervention, or MACCE.\n\n**Inclusion Criteria:**\n1.  **Study Design:** Must be a **Randomized Controlled Trial (RCT)**.\n2.  **Population:** Must explicitly state that the patient cohort is **low-risk**.\n3.  **Comparison:** Must compare TAVR directly against SAVR.\n\n**Exclusion Criteria:**\n1.  **Wrong Study Design:** Exclude ALL non-RCTs. This includes observational studies, cohort studies, registry analyses, case series, case reports, editorials, letters, and especially **systematic reviews or meta-analyses**.\n2.  **Wrong Population:** Exclude studies focused on intermediate-risk or high-risk patients. Exclude pediatric studies or studies on conditions other than aortic stenosis.\n3.  **Wrong Comparison:** Exclude studies that do not compare TAVR vs. SAVR (e.g., TAVR only, SAVR only, TAVR vs. medical therapy, comparisons between different TAVR devices).\n4.  **Wrong Outcomes:** Exclude studies that only report on procedural details, imaging, or economic analyses without clinical outcomes.\n5.  **Animal studies.**\n"

/-- The screening prompt builder (`create_ai_prompt` in `main.py`): embeds
the rubric, title and abstract into the fixed instruction template. -/
def create_ai_prompt (article_title article_abstract : String) : String :=
  "\n    You are an expert assistant conducting a systematic review screening.\n    Based on the provided inclusion and exclusion criteria, please analyze the following article\x27s title and abstract.\n\n    **Screening Criteria:**\n    " ++
  INCLUSION_CRITERIA ++
  "\n\n    ---\n    **Article Title:** " ++
  article_title ++
  "\n    **Article Abstract:** " ++
  article_abstract ++
  "\n    ---\n\n    **Your Task:**\n    Decide if this article should be \x27include\x27 or \x27exclude\x27.\n    - If you decide to \x27exclude\x27, you MUST provide a concise, two-word reason (e.g., \"Not RCT\", \"Wrong Population\", \"Review Article\", \"No Comparison\", \"High-Risk Patients\").\n    Respond ONLY with a valid JSON object in the following format:\n    If including: \x7b\"decision\": \"include\", \"reason\": null\x7d\n    If excluding: \x7b\"decision\": \"exclude\", \"reason\": \"Your Two-Word Reason\"\x7d\n    "

/-- Outcome of one call to the reasoning service
(`client.models.generate_content`): the call raised, returned a response
whose `.text` is `None`, or returned text. -/
inductive OracleResp where
  | raise : OracleResp
  | noText : OracleResp
  | text (s : String) : OracleResp

/-- The markdown code-fence stripping applied to the oracle text:
`response.text.strip().replace("```json", "").replace("```", "").strip()`. -/
def cleaned_response (s : String) : String :=
  ((s.trim.replace "```json" "").replace "```" "").trim

/-- A literal result dict `{"decision": d, "reason": r}` as built by
`get_ai_decision` on its non-passthrough paths. -/
def mkResult (decision reason : String) : JVal :=
  .obj [("decision", .str decision), ("reason", .str reason)]

/-- `get_ai_decision` from `main.py`. `loads` abstracts `json.loads`
(`none` = the parse raised `JSONDecodeError`); `oracle` abstracts the Gemini
call, applied to the built prompt. The whole oracle interaction sits in one
`try` block whose blanket `except` returns `Maybe("API Call Error")`, so a
parse failure, a TypeError from the `in` test on a non-iterable JSON value,
or a TypeError/KeyError from subscripting all land there. Returns the result
dict together with the number of oracle invocations made. -/
def get_ai_decision (loads : String → Option JVal) (oracle : String → OracleResp)
    (article : Article) : JVal × Nat :=
  if articleTitle article = "" ∨ articleAbstract article = "" then
    (mkResult "exclude" "Missing Data", 0)
  else
    match oracle (create_ai_prompt (articleTitle article) (articleAbstract article)) with
    | .raise => (mkResult "maybe" "API Call Error", 1)
    | .noText => (mkResult "maybe" "AI Empty Response", 1)
    | .text s =>
      match loads (cleaned_response s) with
      | none => (mkResult "maybe" "API Call Error", 1)
      | some decision_json =>
        match pyContainsStr "decision" decision_json with
        | .error _ => (mkResult "maybe" "API Call Error", 1)
        | .ok false => (mkResult "maybe" "AI Format Error", 1)
        | .ok true =>
          match pyIndexStr decision_json "decision" with
          | .error _ => (mkResult "maybe" "API Call Error", 1)
          | .ok v =>
            match v with
            | .str d =>
              if d = "include" ∨ d = "exclude" then (decision_json, 1)
              else (mkResult "maybe" "AI Format Error", 1)
            | _ => (mkResult "maybe" "AI Format Error", 1)

/-- The mutation payload posted to the `customize` endpoint:
`{"article_id": ..., "plan": {...}}`, with the plan as ordered key/value
pairs. -/
structure Payload where
  article_id : Option Int
  plan : List (String × Int)

/-- `update_article_status` from `main.py`, reduced to the payload it posts:
`include` sets the inclusion flag, `exclude` with a truthy (non-empty)
reason sets the `__EXR__`-tagged flag keyed by the reason string, `exclude`
otherwise sets the generic exclusion flag, `maybe` sets the neutral flag,
and any other decision string performs no write (`none`). -/
def update_article_status (article_id : Option Int) (decision : String)
    (reason : Option String) : Option Payload :=
  if decision = "include" then
    some ⟨article_id, [("included", 1)]⟩
  else if decision = "exclude" then
    match reason with
    | some r =>
      if r ≠ "" then some ⟨article_id, [("__EXR__" ++ r, 1)]⟩
      else some ⟨article_id, [("included", -1)]⟩
    | none => some ⟨article_id, [("included", -1)]⟩
  else if decision = "maybe" then
    some ⟨article_id, [("included", 0)]⟩
  else
    none

/-- Outcome of one `fetch_undecided_articles` call: `exn` means the fetch
raised and the function returned `None`; `resp ok status data` is a response
with its `ok` flag, HTTP status and the `data` list of its JSON body. -/
inductive FetchOutcome where
  | exn : FetchOutcome
  | resp (ok : Bool) (status : Int) (data : List Article) : FetchOutcome

/-- Why the screening loop stopped: a failed/absent fetch response, or an
empty `data` list (no more undecided articles). -/
inductive StopReason where
  | fetchFail : StopReason
  | noMore : StopReason
deriving DecidableEq

/-- The phase-2 while-loop of `main` in `main.py`, with the environment's
successive fetch outcomes given as a list consumed one per iteration. The
per-article body (classify, write, sleep) never touches the cursor and is
modelled by `get_ai_decision`/`update_article_status` separately. Returns
the final `start_index` and the stop reason (`none` when the supplied
outcome list was exhausted with the loop still running). -/
def screenLoop : List FetchOutcome → Nat → Nat × Option StopReason
  | [], start_index => (start_index, none)
  | .exn :: _, start_index => (start_index, some .fetchFail)
  | .resp ok _ data :: rest, start_index =>
    if ok = false then (start_index, some .fetchFail)
    else if data.isEmpty then (start_index, some .noMore)
    else screenLoop rest (start_index + data.length)

/-- The successive values taken by `start_index` at the top of each executed
iteration of the screening loop (ending with the value at the stop point or
at exhaustion of the supplied outcomes). -/
def screenCursors : List FetchOutcome → Nat → List Nat
  | [], start_index => [start_index]
  | .exn :: _, start_index => [start_index]
  | .resp ok _ data :: rest, start_index =>
    if ok = false then [start_index]
    else if data.isEmpty then [start_index]
    else start_index :: screenCursors rest (start_index + data.length)

/-- Phase 1 of `main` in `main.py`: decide whether the full browser setup
must be re-run. `auth_exists`/`headers_exists` are the two file-existence
tests; `test_response` is the status of the validity probe (`none` when the
probe raised and `fetch_undecided_articles` returned `None`), which is only
consulted when both files exist. -/
def should_run_setup (auth_exists headers_exists : Bool)
    (test_response : Option Int) : Bool :=
  if !(auth_exists && headers_exists) then true
  else
    match test_response with
    | none => true
    | some status => status == 401

/-- A network request as observed by the bootstrap page's request listener. -/
structure CapturedRequest where
  method : String
  url : String
  headers : List (String × String)

/-- The endpoint pattern the bootstrap listener filters on. -/
def target_url_part (review_id : String) : String :=
  "/api/v1/reviews/" ++ review_id ++ "/results"

/-- The header filter of `handle_request`: keep headers whose key
case-insensitively starts with "x-" or equals "authorization". -/
def discovered_headers (headers : List (String × String)) : List (String × String) :=
  headers.filter fun kv => kv.1.toLower.startsWith "x-" || kv.1.toLower == "authorization"

/-- Test for an authorization-bearing entry among the filtered headers
(`'authorization' in (k.lower() for k in discovered_headers)`). -/
def hasAuthorization (hs : List (String × String)) : Bool :=
  hs.any fun kv => kv.1.toLower == "authorization"

/-- One firing of the `handle_request` callback installed by
`perform_full_setup`: the single-shot future is modelled as
`Option`-valued state (`none` = pending, `some m` = resolved with map `m`).
A SEARCH request whose URL contains the target pattern and whose filtered
headers carry an authorization entry resolves the future when it is still
pending; everything else leaves the state unchanged. -/
def handle_request (review_id : String) (future : Option (List (String × String)))
    (request : CapturedRequest) : Option (List (String × String)) :=
  if request.method == "SEARCH" && containsSubstr request.url (target_url_part review_id) then
    let d := discovered_headers request.headers
    if hasAuthorization d && future.isNone then some d else future
  else future

/-- The future's state after the listener has seen a whole sequence of
requests, starting pending. -/
def processRequests (review_id : String) (requests : List CapturedRequest) :
    Option (List (String × String)) :=
  requests.foldl (handle_request review_id) none

/-- The duplicate-comparison prompt of `are_abstracts_duplicates` in
`resolve_duplicates.py` (distinct from the screening prompt: it asks for a
boolean `is_duplicate` plus a free-text reason). -/
def dup_prompt (abstract1 abstract2 : String) : String :=
  "\n    You are an expert academic researcher. Your task is to determine if the two abstracts below describe the exact same study.\n    Focus on the core methodology, population, results, and conclusions. Ignore minor formatting or wording differences.\n    Respond ONLY with a JSON object with two keys: \"is_duplicate\" (boolean) and \"reason\" (a brief string explanation).\n    Abstract 1: --- " ++
  abstract1 ++
  " ---\n    Abstract 2: --- " ++
  abstract2 ++
  " ---\n    "

/-- `are_abstracts_duplicates` from `resolve_duplicates.py`. Empty abstracts
short-circuit; an oracle exception, a `json.loads` failure and an
AttributeError from `.get` on a non-dict JSON value are all caught by the
function's `except` and yield `(False, "AI analysis failed.")`; a parsed
dict is read with `.get("is_duplicate", False)` / `.get("reason", ...)`,
so raw JSON values flow through unconverted. -/
def are_abstracts_duplicates (loads : String → Option JVal) (oracle : String → OracleResp)
    (abstract1 abstract2 : String) : JVal × JVal :=
  if abstract1 = "" ∨ abstract2 = "" then
    (.bool false, .str "One or both abstracts were missing.")
  else
    match oracle (dup_prompt abstract1 abstract2) with
    | .raise => (.bool false, .str "AI analysis failed.")
    | .noText => (.bool false, .str "AI returned no response.")
    | .text s =>
      match loads (cleaned_response s) with
      | none => (.bool false, .str "AI analysis failed.")
      | some (.obj fields) =>
        ((lookupField fields "is_duplicate").getD (.bool false),
         (lookupField fields "reason").getD (.str "No reason provided."))
      | some _ => (.bool false, .str "AI analysis failed.")

/-- The PATCH body sent by `resolve_duplicate_status`:
`{"duplicate_action": 1|2, "isDeletedArticle": False}`. -/
structure DupPayload where
  duplicate_action : Int
  isDeletedArticle : Bool
deriving DecidableEq

/-- `resolve_duplicate_status` from `resolve_duplicates.py`, reduced to the
payload it sends: `action = 1 if is_duplicate else 2` under Python
truthiness of the raw `is_duplicate` value. -/
def resolve_duplicate_status (is_duplicate : JVal) : DupPayload :=
  ⟨if is_duplicate.truthy then 1 else 2, false⟩

/-- `article.get("dedup_results", {}).get("cluster_id")`. -/
def clusterKey (a : Article) : Option JVal :=
  match a.dedup_results with
  | some d => d.cluster_id
  | none => none

/-- `clusters[cluster_id].append(article)` on an insertion-ordered dict
(`defaultdict(list)`): append to the existing entry with an equal key, else
add a new entry at the end. -/
def insertCluster : List (JVal × List Article) → JVal → Article → List (JVal × List Article)
  | [], cluster_id, a => [(cluster_id, [a])]
  | (k, members) :: rest, cluster_id, a =>
    if JVal.beq k cluster_id then (k, members ++ [a]) :: rest
    else (k, members) :: insertCluster rest cluster_id a

/-- The body of the grouping loop in `resolve_duplicates.py`: articles
whose `cluster_id` is absent or falsy (`if cluster_id:`) are skipped,
the rest are appended to their cluster. -/
def groupStep (clusters : List (JVal × List Article)) (a : Article) :
    List (JVal × List Article) :=
  match clusterKey a with
  | some cid => if cid.truthy then insertCluster clusters cid a else clusters
  | none => clusters

/-- Step 2 of `main` in `resolve_duplicates.py`: group fetched articles by
`cluster_id`, preserving dict insertion order. -/
def groupClusters (all_articles : List Article) : List (JVal × List Article) :=
  all_articles.foldl groupStep []

/-- One step of collecting the cluster ids in first-observation order. -/
def firstSeenStep (ks : List JVal) (a : Article) : List JVal :=
  match clusterKey a with
  | some cid =>
    if cid.truthy then (if ks.any (fun k => JVal.beq k cid) then ks else ks ++ [cid])
    else ks
  | none => ks

/-- The cluster ids in the order they are first observed (with a truthy
value) in the fetched sequence; used to state the processing-order
guarantee. -/
def firstSeenKeys (all_articles : List Article) : List JVal :=
  all_articles.foldl firstSeenStep []

/-- An article survives the grouping filter iff its `cluster_id` is present
and truthy. -/
def keptByGrouping (a : Article) : Bool :=
  match clusterKey a with
  | some cid => cid.truthy
  | none => false

/-- Step 3 of `main` in `resolve_duplicates.py`, per cluster: clusters with
fewer than two members are skipped; otherwise the first member is the
anchor and each other member is compared to it and written once. Each
element of the result is one `resolve_duplicate_status` call:
(target article id, PATCH payload). -/
def clusterWrites (loads : String → Option JVal) (oracle : String → OracleResp)
    (articles_in_cluster : List Article) : List (Option Int × DupPayload) :=
  if articles_in_cluster.length < 2 then []
  else
    match articles_in_cluster with
    | [] => []
    | anchor_article :: others =>
      let anchor_abstract := articleAbstract anchor_article
      others.map fun other_article =>
        let other_abstract := articleAbstract other_article
        let is_dup := (are_abstracts_duplicates loads oracle anchor_abstract other_abstract).1
        (other_article.id, resolve_duplicate_status is_dup)

/-- The whole duplicate-resolution run: group, then process each cluster in
dict order, concatenating the writes in execution order. -/
def resolveMain (loads : String → Option JVal) (oracle : String → OracleResp)
    (all_articles : List Article) : List (Option Int × DupPayload) :=
  (groupClusters all_articles).flatMap fun c => clusterWrites loads oracle c.2

/-- A record with both a title and a non-empty first abstract, used to
instantiate universally quantified theorems at a concrete usable input. -/
def sampleArticle : Article :=
  { id := some 1, title := some "T", abstracts := some [{ content := some "A" }] }

/-- C1: for every record whose title or abstract is missing/empty,
`get_ai_decision` returns the `Exclude("Missing Data")` result dict and
performs zero oracle calls. -/
theorem C1_missing_data_short_circuit (loads : String → Option JVal)
    (oracle : String → OracleResp) (article : Article)
    (h : articleTitle article = "" ∨ articleAbstract article = "") :
    get_ai_decision loads oracle article = (mkResult "exclude" "Missing Data", 0) := by
  unfold get_ai_decision
  rw [if_pos h]

/-- C1 witness: a record with a title but no abstract is excluded as
"Missing Data" with zero oracle calls. -/
theorem C1_missing_data_short_circuit_witness :
    get_ai_decision (fun _ => none) (fun _ => OracleResp.raise) { title := some "T" }
      = (mkResult "exclude" "Missing Data", 0) :=
  C1_missing_data_short_circuit (fun _ => none) (fun _ => OracleResp.raise)
    { title := some "T" } (Or.inr rfl)

/-- C5: the screening decision writer maps `include` to the inclusion flag,
`exclude` with a non-empty reason to the `__EXR__`-tagged flag keyed by the
reason string, `exclude` with an absent or empty reason to the generic
exclusion flag, `maybe` to the neutral flag, and any other decision string
to no write at all. -/
theorem C5_update_article_status_plan (article_id : Option Int) (reason : Option String) :
    update_article_status article_id "include" reason
      = some ⟨article_id, [("included", 1)]⟩ ∧
    (∀ r, r ≠ "" →
      update_article_status article_id "exclude" (some r)
        = some ⟨article_id, [("__EXR__" ++ r, 1)]⟩) ∧
    update_article_status article_id "exclude" none
      = some ⟨article_id, [("included", -1)]⟩ ∧
    update_article_status article_id "exclude" (some "")
      = some ⟨article_id, [("included", -1)]⟩ ∧
    update_article_status article_id "maybe" reason
      = some ⟨article_id, [("included", 0)]⟩ ∧
    (∀ d, d ≠ "include" → d ≠ "exclude" → d ≠ "maybe" →
      update_article_status article_id d reason = none) := by
  refine ⟨rfl, ?_, rfl, rfl, rfl, ?_⟩
  · intro r hr
    simp [update_article_status, hr]
  · intro d h1 h2 h3
    simp [update_article_status, h1, h2, h3]

/-- C5 witness: the scenario decision `Exclude("Not RCT")` for record 1
issues the reason-tagged exclusion mutation. -/
theorem C5_update_article_status_plan_witness :
    update_article_status (some 1) "exclude" (some "Not RCT")
      = some ⟨some 1, [("__EXR__Not RCT", 1)]⟩ :=
  (C5_update_article_status_plan (some 1) (some "Not RCT")).2.1 "Not RCT" (by decide)

/-- C8: the full browser setup is re-run exactly when one of the two
persisted credential files is absent, or the validity probe got no response,
or it got HTTP 401; any other probe response with both files present keeps
the existing session. -/
theorem C8_rebootstrap_iff (auth_exists headers_exists : Bool) (test_response : Option Int) :
    should_run_setup auth_exists headers_exists test_response = true ↔
      (auth_exists = false ∨ headers_exists = false ∨
        test_response = none ∨ test_response = some 401) := by
  cases auth_exists <;> cases headers_exists <;> rcases test_response with _ | status <;>
    simp [should_run_setup]

/-- C8 witness: with both files present and a 200 probe, no re-bootstrap;
with a 401 probe, re-bootstrap. -/
theorem C8_rebootstrap_iff_witness :
    should_run_setup true true (some 401) = true ∧
      ¬ should_run_setup true true (some 200) = true :=
  ⟨(C8_rebootstrap_iff true true (some 401)).mpr (by simp),
   fun h => by simpa using (C8_rebootstrap_iff true true (some 200)).mp h⟩

/-- C10: the duplicate comparison has no abstaining outcome — an empty
abstract, an oracle exception, a missing/empty response text, unparseable
text, a non-dict JSON value, or a parsed dict lacking `is_duplicate` all
yield the verdict `False`; and the non-anchor member of a pair cluster is
always written, with verdict `False` mapping to the confirmed-not-duplicate
payload `{duplicate_action: 2}` rather than being skipped. -/
theorem C10_no_abstaining_outcome (loads : String → Option JVal)
    (oracle : String → OracleResp) (abstract1 abstract2 : String) :
    ((abstract1 = "" ∨ abstract2 = "") →
      (are_abstracts_duplicates loads oracle abstract1 abstract2).1 = JVal.bool false) ∧
    (¬(abstract1 = "" ∨ abstract2 = "") →
      (oracle (dup_prompt abstract1 abstract2) = .raise ∨
       oracle (dup_prompt abstract1 abstract2) = .noText ∨
       (∃ s, oracle (dup_prompt abstract1 abstract2) = .text s ∧
         loads (cleaned_response s) = none)) →
      (are_abstracts_duplicates loads oracle abstract1 abstract2).1 = JVal.bool false) ∧
    (∀ s fields, oracle (dup_prompt abstract1 abstract2) = .text s →
      loads (cleaned_response s) = some (.obj fields) →
      lookupField fields "is_duplicate" = none →
      (are_abstracts_duplicates loads oracle abstract1 abstract2).1 = JVal.bool false) ∧
    (resolve_duplicate_status (JVal.bool false) = ⟨2, false⟩) ∧
    (∀ anchor other : Article,
      clusterWrites loads oracle [anchor, other] =
        [(other.id, resolve_duplicate_status
            (are_abstracts_duplicates loads oracle
              (articleAbstract anchor) (articleAbstract other)).1)]) := by
  refine ⟨?_, ?_, ?_, rfl, ?_⟩
  · intro h
    unfold are_abstracts_duplicates
    rw [if_pos h]
  · intro h hfail
    unfold are_abstracts_duplicates
    rw [if_neg h]
    rcases hfail with h1 | h2 | ⟨s, h3, h4⟩
    · rw [h1]
    · rw [h2]
    · rw [h3]
      simp [h4]
  · intro s fields hs hloads hmiss
    by_cases hm : abstract1 = "" ∨ abstract2 = ""
    · unfold are_abstracts_duplicates
      rw [if_pos hm]
    · unfold are_abstracts_duplicates
      rw [if_neg hm, hs]
      simp [hloads, hmiss]
  · intro anchor other
    simp [clusterWrites]

/-- C10 witness: a missing abstract yields verdict `False` and the pair
cluster still issues the not-a-duplicate write for the non-anchor member. -/
theorem C10_no_abstaining_outcome_witness :
    (are_abstracts_duplicates (fun _ => none) (fun _ => OracleResp.raise) "" "A").1
      = JVal.bool false ∧
    clusterWrites (fun _ => none) (fun _ => OracleResp.raise) [{ id := some 1 }, { id := some 2 }]
      = [(some 2, resolve_duplicate_status
          (are_abstracts_duplicates (fun _ => none) (fun _ => OracleResp.raise)
            (articleAbstract { id := some 1 }) (articleAbstract { id := some 2 })).1)] :=
  ⟨(C10_no_abstaining_outcome (fun _ => none) (fun _ => OracleResp.raise) "" "A").1
      (Or.inl rfl),
   (C10_no_abstaining_outcome (fun _ => none) (fun _ => OracleResp.raise) "" "A").2.2.2.2
      { id := some 1 } { id := some 2 }⟩

/-- C2 counterexample: oracle text that fails to parse as JSON does not
yield `Maybe("AI Format Error")` — `json.loads` raises inside the `try`
block and the blanket handler returns `Maybe("API Call Error")` instead. -/
theorem C2_counterexample_parse_failure :
    get_ai_decision (fun _ => none) (fun _ => OracleResp.text "this is not json") sampleArticle
      = (mkResult "maybe" "API Call Error", 1) ∧
    mkResult "maybe" "API Call Error" ≠ mkResult "maybe" "AI Format Error" := by
  constructor
  · rfl
  · intro h
    simp [mkResult] at h

/-- C2 (amended): for a usable record, oracle text that fails to parse as
JSON yields `Maybe("API Call Error")` (the parse exception is swallowed by
the blanket handler); text that parses to a JSON value on which the
`'decision' in ...` membership test raises a TypeError (numbers, booleans,
null) also yields `Maybe("API Call Error")`, as does a value on which the
subsequent subscript raises (arrays/strings containing "decision"); only
a parsed value whose membership test succeeds and reports absence, or whose
`decision` value is not the string "include"/"exclude", yields
`Maybe("AI Format Error")`. -/
theorem C2_format_error_amended (loads : String → Option JVal) (oracle : String → OracleResp)
    (article : Article) (s : String)
    (hUsable : ¬(articleTitle article = "" ∨ articleAbstract article = ""))
    (hOracle : oracle (create_ai_prompt (articleTitle article) (articleAbstract article))
      = OracleResp.text s) :
    (loads (cleaned_response s) = none →
      get_ai_decision loads oracle article = (mkResult "maybe" "API Call Error", 1)) ∧
    (∀ j, loads (cleaned_response s) = some j →
      (pyContainsStr "decision" j = .error () →
        get_ai_decision loads oracle article = (mkResult "maybe" "API Call Error", 1)) ∧
      (pyContainsStr "decision" j = .ok false →
        get_ai_decision loads oracle article = (mkResult "maybe" "AI Format Error", 1)) ∧
      (pyContainsStr "decision" j = .ok true →
        (pyIndexStr j "decision" = .error () →
          get_ai_decision loads oracle article = (mkResult "maybe" "API Call Error", 1)) ∧
        (∀ d, pyIndexStr j "decision" = .ok (JVal.str d) →
          ¬(d = "include" ∨ d = "exclude") →
          get_ai_decision loads oracle article = (mkResult "maybe" "AI Format Error", 1)) ∧
        (∀ v, pyIndexStr j "decision" = .ok v → (∀ d, v ≠ JVal.str d) →
          get_ai_decision loads oracle article = (mkResult "maybe" "AI Format Error", 1)))) := by
  constructor
  · intro hl
    unfold get_ai_decision
    rw [if_neg hUsable, hOracle]
    simp [hl]
  · intro j hj
    refine ⟨?_, ?_, ?_⟩
    · intro hc
      unfold get_ai_decision
      rw [if_neg hUsable, hOracle]
      simp [hj, hc]
    · intro hc
      unfold get_ai_decision
      rw [if_neg hUsable, hOracle]
      simp [hj, hc]
    · intro hc
      refine ⟨?_, ?_, ?_⟩
      · intro hi
        unfold get_ai_decision
        rw [if_neg hUsable, hOracle]
        simp [hj, hc, hi]
      · intro d hi hd
        unfold get_ai_decision
        rw [if_neg hUsable, hOracle]
        simp only [hj, hc, hi]
        rw [if_neg hd]
      · intro v hi hv
        unfold get_ai_decision
        rw [if_neg hUsable, hOracle]
        simp only [hj, hc, hi]

/-- C2 amended witness: a parsed empty JSON object (no `decision` key)
yields `Maybe("AI Format Error")`. -/
theorem C2_format_error_amended_witness :
    get_ai_decision (fun _ => some (JVal.obj [])) (fun _ => OracleResp.text "x") sampleArticle
      = (mkResult "maybe" "AI Format Error", 1) :=
  ((C2_format_error_amended (fun _ => some (JVal.obj [])) (fun _ => OracleResp.text "x")
      sampleArticle "x" (by decide) rfl).2 (JVal.obj []) rfl).2.1 rfl

/-- C3 counterexample: when the raw JSON supplies a reason alongside an
`include` decision, `get_ai_decision` returns the parsed object unchanged —
the returned include decision does carry the reason. -/
theorem C3_counterexample_include_reason :
    get_ai_decision
        (fun _ => some (JVal.obj [("decision", JVal.str "include"),
          ("reason", JVal.str "Strong match")]))
        (fun _ => OracleResp.text "x") sampleArticle
      = (JVal.obj [("decision", JVal.str "include"), ("reason", JVal.str "Strong match")], 1) ∧
    lookupField [("decision", JVal.str "include"), ("reason", JVal.str "Strong match")] "reason"
      = some (JVal.str "Strong match") :=
  ⟨rfl, rfl⟩

/-- C3 (amended): for valid JSON with `decision ∈ {include, exclude}` the
returned decision matches exactly — the whole parsed object is returned
as-is, any supplied reason included; the reason of an `include` decision is
only discarded by the decision writer, whose include mutation payload is
the bare inclusion flag regardless of the reason argument. -/
theorem C3_passthrough_amended (loads : String → Option JVal) (oracle : String → OracleResp)
    (article : Article) (s : String) (j : JVal) (d : String)
    (hUsable : ¬(articleTitle article = "" ∨ articleAbstract article = ""))
    (hOracle : oracle (create_ai_prompt (articleTitle article) (articleAbstract article))
      = OracleResp.text s)
    (hLoads : loads (cleaned_response s) = some j)
    (hContains : pyContainsStr "decision" j = .ok true)
    (hIndex : pyIndexStr j "decision" = .ok (JVal.str d))
    (hVal : d = "include" ∨ d = "exclude") :
    get_ai_decision loads oracle article = (j, 1) ∧
    (∀ article_id reason, update_article_status article_id "include" reason
      = some ⟨article_id, [("included", 1)]⟩) := by
  constructor
  · unfold get_ai_decision
    rw [if_neg hUsable, hOracle]
    simp only [hLoads, hContains, hIndex]
    rw [if_pos hVal]
  · intro article_id reason
    rfl

/-- C3 amended witness: the parsed `{"decision": "exclude", "reason": "Not
RCT"}` object is returned exactly, and the writer's include payload ignores
the reason argument. -/
theorem C3_passthrough_amended_witness :
    get_ai_decision
        (fun _ => some (JVal.obj [("decision", JVal.str "exclude"),
          ("reason", JVal.str "Not RCT")]))
        (fun _ => OracleResp.text "x") sampleArticle
      = (JVal.obj [("decision", JVal.str "exclude"), ("reason", JVal.str "Not RCT")], 1) ∧
    update_article_status (some 2) "include" (some "whatever")
      = some ⟨some 2, [("included", 1)]⟩ :=
  ⟨(C3_passthrough_amended
      (fun _ => some (JVal.obj [("decision", JVal.str "exclude"),
        ("reason", JVal.str "Not RCT")]))
      (fun _ => OracleResp.text "x") sampleArticle "x"
      (JVal.obj [("decision", JVal.str "exclude"), ("reason", JVal.str "Not RCT")])
      "exclude" (by decide) rfl rfl rfl rfl (Or.inr rfl)).1,
   (C3_passthrough_amended
      (fun _ => some (JVal.obj [("decision", JVal.str "exclude"),
        ("reason", JVal.str "Not RCT")]))
      (fun _ => OracleResp.text "x") sampleArticle "x"
      (JVal.obj [("decision", JVal.str "exclude"), ("reason", JVal.str "Not RCT")])
      "exclude" (by decide) rfl rfl rfl rfl (Or.inr rfl)).2 (some 2) (some "whatever")⟩

/-- The first cursor value recorded by `screenCursors` is the starting one. -/
theorem screenCursors_head (env : List FetchOutcome) (start : Nat) :
    ∃ t, screenCursors env start = start :: t := by
  cases env with
  | nil => exact ⟨[], rfl⟩
  | cons f rest =>
    cases f with
    | exn => exact ⟨[], rfl⟩
    | resp ok status data =>
      cases ok with
      | false => exact ⟨[], rfl⟩
      | true =>
        by_cases h : data.isEmpty
        · exact ⟨[], by simp [screenCursors, h]⟩
        · exact ⟨screenCursors rest (start + data.length), by simp [screenCursors, h]⟩

/-- C4: the screening loop's batch-cursor discipline — a successful
non-empty fetch advances the cursor by exactly the number of records
returned; a successful empty fetch stops the loop (no more articles)
without moving the cursor; a non-OK or absent response stops the loop
without moving the cursor; the successive cursor values never decrease; and
when no stop reason is produced, every consumed fetch outcome was an OK
response with a non-empty record list. -/
theorem C4_batch_cursor (env : List FetchOutcome) (start : Nat) :
    (∀ status data rest, ¬data.isEmpty →
      screenLoop (.resp true status data :: rest) start
        = screenLoop rest (start + data.length)) ∧
    (∀ status rest, screenLoop (.resp true status [] :: rest) start
      = (start, some .noMore)) ∧
    (∀ status data rest, screenLoop (.resp false status data :: rest) start
      = (start, some .fetchFail)) ∧
    (∀ rest, screenLoop (.exn :: rest) start = (start, some .fetchFail)) ∧
    List.Chain' (· ≤ ·) (screenCursors env start) ∧
    ((screenLoop env start).2 = none →
      ∀ f ∈ env, ∃ status data, f = FetchOutcome.resp true status data ∧ data ≠ []) := by
  refine ⟨?_, ?_, ?_, ?_, ?_, ?_⟩
  · intro status data rest h
    simp [screenLoop, h]
  · intro status rest
    simp [screenLoop]
  · intro status data rest
    simp [screenLoop]
  · intro rest
    simp [screenLoop]
  · induction env generalizing start with
    | nil => simp [screenCursors]
    | cons f rest ih =>
      cases f with
      | exn => simp [screenCursors]
      | resp ok status data =>
        cases ok with
        | false => simp [screenCursors]
        | true =>
          by_cases h : data.isEmpty
          · simp [screenCursors, h]
          · rw [screenCursors, if_neg (by simp), if_neg h]
            obtain ⟨t, ht⟩ := screenCursors_head rest (start + data.length)
            rw [ht]
            exact List.Chain'.cons (Nat.le_add_right start data.length) (ht ▸ ih (start + data.length))
  · induction env generalizing start with
    | nil => intro _ f hf; simp at hf
    | cons g rest ih =>
      intro hrun f hf
      cases g with
      | exn => simp [screenLoop] at hrun
      | resp ok status data =>
        cases ok with
        | false => simp [screenLoop] at hrun
        | true =>
          by_cases h : data.isEmpty
          · rw [screenLoop, if_neg (by simp), if_pos h] at hrun
            simp at hrun
          · rw [screenLoop, if_neg (by simp), if_neg h] at hrun
            rcases List.mem_cons.mp hf with rfl | hf
            · exact ⟨status, data, rfl, by simpa using h⟩
            · exact ih (start + data.length) hrun f hf

/-- C4 witness: from cursor 0, a batch of two records advances the cursor
to 2, a following empty batch stops with "no more", and the cursor trace is
non-decreasing. -/
theorem C4_batch_cursor_witness :
    screenLoop [FetchOutcome.resp true 200 [sampleArticle, sampleArticle]] 0
      = screenLoop [] (0 + 2) ∧
    screenLoop [FetchOutcome.resp true 200 []] 2 = (2, some .noMore) ∧
    screenLoop [FetchOutcome.exn] 2 = (2, some .fetchFail) :=
  ⟨(C4_batch_cursor [] 0).1 200 [sampleArticle, sampleArticle]
      [] (by decide),
   (C4_batch_cursor [] 2).2.1 200 [],
   (C4_batch_cursor [] 2).2.2.2.1 []⟩

/-- Once the bootstrap future is resolved, later observed requests leave it
unchanged. -/
theorem foldl_handle_request_resolved (review_id : String) (requests : List CapturedRequest)
    (resolved : List (String × String)) :
    requests.foldl (handle_request review_id) (some resolved) = some resolved := by
  induction requests with
  | nil => rfl
  | cons r rest ih =>
    have hstep : handle_request review_id (some resolved) r = some resolved := by
      unfold handle_request
      split
      · simp
      · rfl
    rw [List.foldl_cons, hstep, ih]

/-- C9: the header-capture future is single-shot and first-match-wins —
once resolved it absorbs every further request unchanged, and from the
pending state the final value is exactly the filtered header map of the
first request that matches the target method/URL pattern and carries an
authorization-bearing filtered header (and `none` when no such request
occurs). -/
theorem C9_single_shot_capture (review_id : String) (requests : List CapturedRequest)
    (resolved : List (String × String)) :
    (requests.foldl (handle_request review_id) (some resolved) = some resolved) ∧
    (processRequests review_id requests =
      (requests.find? fun r =>
        (r.method == "SEARCH" && containsSubstr r.url (target_url_part review_id))
          && hasAuthorization (discovered_headers r.headers)).map
        fun r => discovered_headers r.headers) := by
  refine ⟨foldl_handle_request_resolved review_id requests resolved, ?_⟩
  induction requests with
  | nil => rfl
  | cons r rest ih =>
    by_cases hm : (r.method == "SEARCH" && containsSubstr r.url (target_url_part review_id)) = true
    · by_cases ha : hasAuthorization (discovered_headers r.headers) = true
      · have hstep : handle_request review_id none r = some (discovered_headers r.headers) := by
          unfold handle_request
          rw [if_pos hm]
          simp [ha]
        rw [processRequests, List.foldl_cons, hstep,
          foldl_handle_request_resolved review_id rest,
          List.find?_cons_of_pos _ (by simp [hm, ha])]
        rfl
      · have hstep : handle_request review_id none r = none := by
          unfold handle_request
          rw [if_pos hm]
          simp [ha]
        rw [processRequests, List.foldl_cons, hstep,
          List.find?_cons_of_neg _ (by simp [ha])]
        exact ih
    · have hstep : handle_request review_id none r = none := by
        unfold handle_request
        rw [if_neg hm]
      rw [processRequests, List.foldl_cons, hstep,
        List.find?_cons_of_neg _ (by simp [hm])]
      exact ih

/-- Inserting into the cluster dict keeps the key list unchanged when the
key is already present, and appends it at the end otherwise. -/
theorem insertCluster_keys (acc : List (JVal × List Article)) (cid : JVal) (a : Article) :
    (insertCluster acc cid a).map Prod.fst =
      if acc.any (fun c => JVal.beq c.1 cid) then acc.map Prod.fst
      else acc.map Prod.fst ++ [cid] := by
  induction acc with
  | nil => simp [insertCluster]
  | cons hd tl ih =>
    obtain ⟨k, members⟩ := hd
    by_cases h : JVal.beq k cid = true
    · simp [insertCluster, h]
    · have hrec : insertCluster ((k, members) :: tl) cid a
          = (k, members) :: insertCluster tl cid a := by
        simp only [insertCluster]
        rw [if_neg h]
      rw [hrec, List.map_cons, ih, List.map_cons, List.any_cons]
      by_cases h2 : (tl.any fun c => JVal.beq c.1 cid) = true
      · simp [h, h2]
      · simp [h, h2]

/-- Inserting into the cluster dict appends the article, up to order, to
the concatenation of all members. -/
theorem insertCluster_flatten (acc : List (JVal × List Article)) (cid : JVal) (a : Article) :
    ((insertCluster acc cid a).flatMap Prod.snd).Perm ((acc.flatMap Prod.snd) ++ [a]) := by
  induction acc with
  | nil => simp [insertCluster]
  | cons hd tl ih =>
    obtain ⟨k, members⟩ := hd
    by_cases h : JVal.beq k cid = true
    · simp only [insertCluster, if_pos h, List.flatMap_cons, List.append_assoc]
      exact List.Perm.append_left members List.perm_append_comm
    · simp only [insertCluster, if_neg h, List.flatMap_cons, List.append_assoc]
      exact ih.append_left members

/-- Key membership is the same whether tested on the dict entries or on the
projected key list. -/
theorem map_fst_any (acc : List (JVal × List Article)) (cid : JVal) :
    ((acc.map Prod.fst).any fun k => JVal.beq k cid) = acc.any fun c => JVal.beq c.1 cid := by
  induction acc with
  | nil => rfl
  | cons hd tl ih => simp [ih]

/-- Folding the grouping step maps, on keys, to folding the
first-observation step. -/
theorem foldl_groupStep_keys (l : List Article) :
    ∀ acc : List (JVal × List Article),
      (l.foldl groupStep acc).map Prod.fst = l.foldl firstSeenStep (acc.map Prod.fst) := by
  induction l with
  | nil => intro acc; rfl
  | cons a rest ih =>
    intro acc
    rw [List.foldl_cons, List.foldl_cons, ih]
    congr 1
    unfold groupStep firstSeenStep
    cases hck : clusterKey a with
    | none => rfl
    | some cid =>
      by_cases ht : cid.truthy = true
      · simp only [ht, if_true, insertCluster_keys]
        rw [map_fst_any]
      · simp [ht]

/-- Folding the grouping step over a list appends, up to order, exactly the
kept articles to the concatenation of all members. -/
theorem foldl_groupStep_flatten (l : List Article) :
    ∀ acc : List (JVal × List Article),
      ((l.foldl groupStep acc).flatMap Prod.snd).Perm
        ((acc.flatMap Prod.snd) ++ l.filter keptByGrouping) := by
  induction l with
  | nil => intro acc; simp
  | cons a rest ih =>
    intro acc
    rw [List.foldl_cons]
    by_cases hk : keptByGrouping a = true
    · obtain ⟨cid, hck, ht⟩ : ∃ cid, clusterKey a = some cid ∧ cid.truthy = true := by
        unfold keptByGrouping at hk
        cases hck : clusterKey a with
        | none => rw [hck] at hk; exact absurd hk (by simp)
        | some cid => rw [hck] at hk; exact ⟨cid, rfl, hk⟩
      have hstep : groupStep acc a = insertCluster acc cid a := by
        unfold groupStep
        simp [hck, ht]
      rw [hstep, List.filter_cons_of_pos hk]
      refine (ih (insertCluster acc cid a)).trans ?_
      have hperm := (insertCluster_flatten acc cid a).append_right (rest.filter keptByGrouping)
      refine hperm.trans ?_
      rw [List.append_assoc]
      exact List.Perm.refl _
    · have hstep : groupStep acc a = acc := by
        unfold groupStep
        cases hck : clusterKey a with
        | none => rfl
        | some cid =>
          have ht : ¬cid.truthy = true := by
            unfold keptByGrouping at hk
            rw [hck] at hk
            simpa using hk
          simp [ht]
      rw [hstep, List.filter_cons_of_neg (by simpa using hk)]
      exact ih acc

/-- Non-degenerate clusters: the writes of a cluster with at least two
members are one per non-anchor member, each the duplicate-resolution
payload of the oracle comparison of the anchor's abstract against that
member's. -/
theorem clusterWrites_cons (loads : String → Option JVal) (oracle : String → OracleResp)
    (anchor : Article) (others : List Article) (h : others ≠ []) :
    clusterWrites loads oracle (anchor :: others) =
      others.map fun other =>
        (other.id, resolve_duplicate_status
          (are_abstracts_duplicates loads oracle
            (articleAbstract anchor) (articleAbstract other)).1) := by
  have hlen : ¬((anchor :: others).length < 2) := by
    cases others with
    | nil => exact absurd rfl h
    | cons b bs => simp [List.length_cons]
  unfold clusterWrites
  rw [if_neg hlen]

/-- C6: cluster-resolution processing — clusters with fewer than two
members produce no writes; otherwise the first member is the anchor and
each other member receives exactly one binary duplicate-resolution write
computed from the oracle comparison of the anchor's abstract with its own;
the anchor (assuming its id is not shared by another member) is never
written; the cluster dict lists clusters in the order their ids were first
observed; and the run processes clusters strictly sequentially in that
order, concatenating their writes. -/
theorem C6_cluster_resolution (loads : String → Option JVal) (oracle : String → OracleResp)
    (all_articles : List Article) :
    (∀ c : List Article, c.length < 2 → clusterWrites loads oracle c = []) ∧
    (∀ anchor : Article, ∀ others : List Article, others ≠ [] →
      clusterWrites loads oracle (anchor :: others) =
        others.map fun other =>
          (other.id, resolve_duplicate_status
            (are_abstracts_duplicates loads oracle
              (articleAbstract anchor) (articleAbstract other)).1)) ∧
    (∀ anchor : Article, ∀ others : List Article, anchor.id ∉ others.map Article.id →
      anchor.id ∉ (clusterWrites loads oracle (anchor :: others)).map Prod.fst) ∧
    ((groupClusters all_articles).map Prod.fst = firstSeenKeys all_articles) ∧
    (resolveMain loads oracle all_articles
      = (groupClusters all_articles).flatMap fun c => clusterWrites loads oracle c.2) := by
  refine ⟨?_, ?_, ?_, ?_, rfl⟩
  · intro c h
    unfold clusterWrites
    rw [if_pos h]
  · intro anchor others h
    exact clusterWrites_cons loads oracle anchor others h
  · intro anchor others hmem
    by_cases ho : others = []
    · subst ho
      simp [clusterWrites]
    · rw [clusterWrites_cons loads oracle anchor others ho]
      simpa [List.map_map, Function.comp] using hmem
  · exact foldl_groupStep_keys all_articles []

/-- C6 witness: the scenario cluster `[A(id=1), B(id=2), C(id=3)]` yields
exactly one write for id 2 and one for id 3, and none for the anchor id 1. -/
theorem C6_cluster_resolution_witness :
    clusterWrites (fun _ => none) (fun _ => OracleResp.raise)
        [{ id := some 1 }, { id := some 2 }, { id := some 3 }]
      = [(some 2, resolve_duplicate_status
            (are_abstracts_duplicates (fun _ => none) (fun _ => OracleResp.raise)
              (articleAbstract { id := some 1 }) (articleAbstract { id := some 2 })).1),
         (some 3, resolve_duplicate_status
            (are_abstracts_duplicates (fun _ => none) (fun _ => OracleResp.raise)
              (articleAbstract { id := some 1 }) (articleAbstract { id := some 3 })).1)] ∧
    (some 1 : Option Int) ∉ (clusterWrites (fun _ => none) (fun _ => OracleResp.raise)
        [{ id := some 1 }, { id := some 2 }, { id := some 3 }]).map Prod.fst :=
  ⟨(C6_cluster_resolution (fun _ => none) (fun _ => OracleResp.raise) []).2.1
      { id := some 1 } [{ id := some 2 }, { id := some 3 }] (by simp),
   (C6_cluster_resolution (fun _ => none) (fun _ => OracleResp.raise) []).2.2.1
      { id := some 1 } [{ id := some 2 }, { id := some 3 }] (by simp)⟩

/-- An article whose `cluster_id` is present but falsy (here the number 0),
which the grouping loop silently drops. -/
def falsyClusterArticle : Article :=
  { id := some 7, dedup_results := some { cluster_id := some (JVal.num 0) } }

/-- C7 counterexample: a record with a present `clusterId` can be dropped —
`if cluster_id:` discards falsy values, so for this one-record input the
member union of the clusters is empty while the input minus the records
with an absent clusterId is the whole input. -/
theorem C7_counterexample_falsy_cluster_id :
    clusterKey falsyClusterArticle = some (JVal.num 0) ∧
    (groupClusters [falsyClusterArticle]).flatMap Prod.snd = [] ∧
    [falsyClusterArticle].filter (fun a => (clusterKey a).isSome) = [falsyClusterArticle] :=
  ⟨rfl, rfl, rfl⟩

/-- C7 (amended): grouping by `clusterId` produces clusters whose member
union equals, up to order and with multiplicity, the input sequence minus
the records whose `clusterId` is absent **or falsy** (null, False, 0, empty
string, empty collection); no record with a present truthy `clusterId` is
dropped and no record occurrence appears in more than one cluster. -/
theorem C7_grouping_union_amended (all_articles : List Article) :
    ((groupClusters all_articles).flatMap Prod.snd).Perm
      (all_articles.filter keptByGrouping) := by
  simpa using foldl_groupStep_flatten all_articles []

end Screener
